import Mathlib

/-!
Shallow embedding of `keccak256/src/gates/running_sum.rs`.

Polynomial `Expression`s emitted by `create_gate` closures are modelled as
their evaluations on one row: every advice query (`Rotation::cur` /
`Rotation::next`) and selector query becomes an explicit value of the field
`F`, and a gate becomes the list of `(name, value)` pairs the closure
returns.  `ConstraintSystem` column/selector allocation is modelled as a
counter state; columns and selectors are natural-number identifiers.
`unreachable!` (a Rust panic, fired eagerly because `create_gate` evaluates
its closure during `configure`) is modelled by `Option`: `none` is the
abort.  Rust `u32`/`u64` arithmetic is modelled on `Nat`: all quantities
involved (chunk indices up to 64, `base^step ≤ 13^4`) are far below the
wrap-around of their machine types, and the `u32` subtractions
`rotation - chunk_idx` and `LANE_SIZE - chunk_idx` are performed under
guards that make them agree with truncated `Nat` subtraction.
-/

namespace RunningSum

/-- Modelled from the spec: the numeral base 13 constant `B13` from
`arith_helpers.rs` (a file not under `src/`); the spec fixes the two bases
as base-13 and base-9. -/
def B13 : ℕ := 13

/-- Modelled from the spec: the numeral base 9 constant `B9` from
`arith_helpers.rs` (a file not under `src/`). -/
def B9 : ℕ := 9

/-! ### Chunk size scheduling (`get_step_size`) -/

/-- `fn get_step_size(chunk_idx: u32, rotation: u32) -> u32`.
`BASE_NUM_OF_CHUNKS = 4`, `LANE_SIZE = 64`; the rotation-pivot test comes
first, the lane-end test second, default 4. -/
def get_step_size (chunk_idx rotation : ℕ) : ℕ :=
  if chunk_idx < rotation ∧ rotation < chunk_idx + 4 then
    rotation - chunk_idx
  else if chunk_idx < 64 ∧ 64 < chunk_idx + 4 then
    64 - chunk_idx
  else
    4

theorem get_step_size_pos (chunk_idx rotation : ℕ) :
    0 < get_step_size chunk_idx rotation := by
  unfold get_step_size
  split
  · omega
  · split <;> omega

/-- The `while chunk_idx < 64` loop of `LaneRotateConversionConfig::configure`,
viewed as the sequence of step sizes it consumes.  The loop is embedded with
explicit fuel (structural recursion so that it evaluates inside `decide`);
`chunkStepsAux_fuel` below shows any fuel `≥ 64 - chunk_idx` gives the same
list, so the fuel never runs out for the entry point `chunkSteps`. -/
def chunkStepsAux (rotation : ℕ) : ℕ → ℕ → List ℕ
  | 0, _ => []
  | fuel + 1, chunk_idx =>
    if chunk_idx < 64 then
      let step := get_step_size chunk_idx rotation
      step :: chunkStepsAux rotation fuel (chunk_idx + step)
    else []

theorem chunkStepsAux_fuel (rotation : ℕ) :
    ∀ fuel₁ fuel₂ chunk_idx, 64 ≤ chunk_idx + fuel₁ → 64 ≤ chunk_idx + fuel₂ →
      chunkStepsAux rotation fuel₁ chunk_idx = chunkStepsAux rotation fuel₂ chunk_idx := by
  intro fuel₁
  induction fuel₁ with
  | zero =>
    intro fuel₂ chunk_idx h₁ _
    cases fuel₂ with
    | zero => rfl
    | succ f => simp only [chunkStepsAux]; rw [if_neg (by omega)]
  | succ f ih =>
    intro fuel₂ chunk_idx h₁ h₂
    cases fuel₂ with
    | zero => simp only [chunkStepsAux]; rw [if_neg (by omega)]
    | succ f' =>
      simp only [chunkStepsAux]
      by_cases hlt : chunk_idx < 64
      · rw [if_pos hlt, if_pos hlt]
        have hpos := get_step_size_pos chunk_idx rotation
        have := ih f' (chunk_idx + get_step_size chunk_idx rotation)
          (by omega) (by omega)
        simp only [this]
      · rw [if_neg hlt, if_neg hlt]

/-- The step sizes of all chunks the lane loop produces, starting from
`chunk_idx = 1` (fuel 63 suffices: `63 = 64 - 1` and each iteration advances
`chunk_idx` by at least 1). -/
def chunkSteps (rotation : ℕ) : List ℕ :=
  chunkStepsAux rotation 63 1

/-- All chunk boundaries: the starting index 1, each successive
`chunk_idx += step`, and the final index where the loop exits. -/
def chunkBoundaries (rotation : ℕ) : List ℕ :=
  List.scanl (· + ·) 1 (chunkSteps rotation)

/-! ### Gate polynomials, evaluated on a row -/

/-- A gate's emitted constraints all vanish on the row. -/
def gateHolds {F : Type} [CommRing F] (gate : List (String × F)) : Prop :=
  ∀ c ∈ gate, c.2 = 0

/-- The "mul" gate of `RunningSumConfig::configure`, evaluated on one row.
`q_enable`, `is_final` are the two selector values; `coef`, `slice`, `acc`
are the `Rotation::cur` queries of the three columns, `next_slice`,
`next_acc` the `Rotation::next` queries of `slice` and `accumulator`.  The
`slice_multiplier` constant is `F::from(u64::pow(base, step))`. -/
def runningSumGate {F : Type} [CommRing F] (base step : ℕ)
    (q_enable is_final coef slice acc next_slice next_acc : F) :
    List (String × F) :=
  [("(not final) check next acc",
      (is_final - 1) * (next_acc - (acc - coef * slice))),
   ("(final) check acc", is_final * (acc - coef * slice)),
   ("next slice", next_slice - slice * ((base ^ step : ℕ) : F))].map
    (fun c => (c.1, q_enable * c.2))

/-- The "accumulate block count" gate of `BlockCountAccConfig::configure`,
evaluated on one row.  `block_count` is the `Rotation::cur` query of
`block_count_cols[0]`; `delta_step2`/`delta_step3` are `next - cur` of
`block_count_cols[1]`/`block_count_cols[2]`.  The `match step` arms 1, 2, 3
give the constraint lists; the `_ => unreachable!("expect step < 4")` arm —
a panic raised while `create_gate` evaluates the closure — is `none`. -/
def blockCountAccGate {F : Type} [CommRing F] (step : ℕ)
    (q_enable block_count bc2_cur bc2_next bc3_cur bc3_next : F) :
    Option (List (String × F)) :=
  let delta_step2 := bc2_next - bc2_cur
  let delta_step3 := bc3_next - bc3_cur
  (match step with
   | 1 => some [("block_count = 0", block_count),
                ("delta_step2 = 0", delta_step2),
                ("delta_step3 = 0", delta_step3)]
   | 2 => some [("delta_step2 = block_count", delta_step2 - block_count),
                ("delta_step3 = 0", delta_step3)]
   | 3 => some [("delta_step2 = 0", delta_step2),
                ("delta_step3 = block_count", delta_step3 - block_count)]
   | _ => none).map
    (fun l : List (String × F) => l.map (fun c : String × F => (c.1, q_enable * c.2)))

/-- Rust's `Iterator::reduce` with closure `|a, b| a * b`: `none` on an
empty iterator, otherwise the left fold of `*` started at the first
element. -/
def reduceMul {F : Type} [CommRing F] : List F → Option F
  | [] => none
  | x :: xs => some (xs.foldl (· * ·) x)

/-- The "block count final check" gate of `BlockCountFinalConfig::configure`,
evaluated on one row.  `step2_acc`/`step3_acc` are the `Rotation::cur`
queries of `block_count_cols[1]`/`block_count_cols[2]`; the two ranges are
`0..=12` and `0..=13*13`, and a `None` reduce result is replaced by the
constant zero (the `None => (name, Expression::Constant(F::zero()))` arm). -/
def blockCountFinalGate {F : Type} [CommRing F]
    (q_enable step2_acc step3_acc : F) : List (String × F) :=
  [("step2_acc <=12",
      reduceMul ((List.range (12 + 1)).map (fun x : ℕ => step2_acc - (x : F)))),
   ("step3_acc <= 13 * 13",
      reduceMul ((List.range (13 * 13 + 1)).map (fun x : ℕ => step3_acc - (x : F))))].map
    (fun c => match c.2 with
      | some poly => (c.1, q_enable * poly)
      | none => (c.1, (0 : F)))

/-! ### `ConstraintSystem` and the `configure` functions

Columns and selectors are identifiers; `meta.advice_column()` and
`meta.selector()` hand out fresh ones from counters.  `create_gate` itself
changes no allocation state, so a `configure` that only creates gates
returns its config (or `none` if a gate closure panics). -/

/-- The allocation state of the `ConstraintSystem` collaborator. -/
structure CS where
  num_advice : ℕ
  num_selectors : ℕ
deriving DecidableEq

/-- `meta.advice_column()`. -/
def CS.advice_column (cs : CS) : ℕ × CS :=
  (cs.num_advice, { cs with num_advice := cs.num_advice + 1 })

/-- `meta.selector()`. -/
def CS.selector (cs : CS) : ℕ × CS :=
  (cs.num_selectors, { cs with num_selectors := cs.num_selectors + 1 })

/-- A `[Column<Advice>; 3]` triple, by identifier. -/
structure Cols3 where
  c0 : ℕ
  c1 : ℕ
  c2 : ℕ
deriving DecidableEq

/-- `RunningSumConfig` (the `PhantomData` marker is dropped). -/
structure RunningSumConfig where
  q_enable : ℕ
  is_final : ℕ
  coef : ℕ
  slice : ℕ
  accumulator : ℕ
  step : ℕ
  base : ℕ
deriving DecidableEq

/-- `RunningSumConfig::configure`: records the selectors, the three columns
`cols[0..2]`, `step` and `base`, and creates the "mul" gate (modelled by
`runningSumGate`; gate creation never fails). -/
def RunningSumConfig.configure (q_enable is_final : ℕ) (cols : Cols3)
    (step base : ℕ) : RunningSumConfig :=
  { q_enable := q_enable, is_final := is_final,
    coef := cols.c0, slice := cols.c1, accumulator := cols.c2,
    step := step, base := base }

/-- `BlockCountAccConfig`. -/
structure BlockCountAccConfig where
  q_enable : ℕ
  block_count_cols : Cols3
  step : ℕ
deriving DecidableEq

/-- `BlockCountAccConfig::configure`: creates the "accumulate block count"
gate and returns the config.  `create_gate` evaluates its closure at once,
so a `step` outside `{1,2,3}` hits `unreachable!("expect step < 4")` and
aborts construction: `none`. -/
def BlockCountAccConfig.configure (q_enable : ℕ) (block_count_cols : Cols3)
    (step : ℕ) : Option BlockCountAccConfig :=
  match step with
  | 1 | 2 | 3 =>
    some { q_enable := q_enable, block_count_cols := block_count_cols,
           step := step }
  | _ => none

/-- `BlockCountFinalConfig`. -/
structure BlockCountFinalConfig where
  q_enable : ℕ
  block_count_cols : Cols3
deriving DecidableEq

/-- `BlockCountFinalConfig::configure`: creates the "block count final
check" gate (modelled by `blockCountFinalGate`; never fails). -/
def BlockCountFinalConfig.configure (q_enable : ℕ)
    (block_count_cols : Cols3) : BlockCountFinalConfig :=
  { q_enable := q_enable, block_count_cols := block_count_cols }

/-- Modelled from the spec: `Base13toBase9TableConfig` lives in
`gates/tables.rs`, which is not under `src/`.  Per spec §4.4 its
`configure` registers a static lookup constraining the queried
(base-13 slice, base-9 slice, block-count) columns; it is modelled as
recording those three columns and the gating selector. -/
structure Base13toBase9TableConfig where
  q_enable : ℕ
  base13_slice : ℕ
  base9_slice : ℕ
  block_count : ℕ
deriving DecidableEq

/-- Modelled from the spec: `Base13toBase9TableConfig::configure` records
the lookup wiring and allocates nothing visible to this layer. -/
def Base13toBase9TableConfig.configure (q_enable base13_slice base9_slice
    block_count : ℕ) : Base13toBase9TableConfig :=
  { q_enable := q_enable, base13_slice := base13_slice,
    base9_slice := base9_slice, block_count := block_count }

/-- `ChunkRotateConversionConfig`. -/
structure ChunkRotateConversionConfig where
  q_enable : ℕ
  base_13_cols : Cols3
  base_9_cols : Cols3
  block_count_cols : Cols3
  base_13_to_base_9_lookup : Base13toBase9TableConfig
  b13_rs_config : RunningSumConfig
  b9_rs_config : RunningSumConfig
  block_count_acc_config : BlockCountAccConfig
deriving DecidableEq

/-- `ChunkRotateConversionConfig::configure`: wires the lookup on
`base_13_cols[1]`, `base_9_cols[1]`, `block_count_cols[0]`, a base-13 and a
base-9 running sum on the full triples, and one block-count accumulator —
whose `configure` panics (`none`) when `step ∉ {1,2,3}`. -/
def ChunkRotateConversionConfig.configure (q_enable is_final : ℕ)
    (base_13_cols base_9_cols block_count_cols : Cols3) (step : ℕ) :
    Option ChunkRotateConversionConfig :=
  let base_13_to_base_9_lookup := Base13toBase9TableConfig.configure
    q_enable base_13_cols.c1 base_9_cols.c1 block_count_cols.c0
  let b13_rs_config := RunningSumConfig.configure
    q_enable is_final base_13_cols step B13
  let b9_rs_config := RunningSumConfig.configure
    q_enable is_final base_9_cols step B9
  (BlockCountAccConfig.configure q_enable block_count_cols step).map
    (fun block_count_acc_config =>
      { q_enable := q_enable,
        base_13_cols := base_13_cols,
        base_9_cols := base_9_cols,
        block_count_cols := block_count_cols,
        base_13_to_base_9_lookup := base_13_to_base_9_lookup,
        b13_rs_config := b13_rs_config,
        b9_rs_config := b9_rs_config,
        block_count_acc_config := block_count_acc_config })

/-- `LaneRotateConversionConfig`. -/
structure LaneRotateConversionConfig where
  q_enable : ℕ
  base_13_cols : Cols3
  base_9_cols : Cols3
  chunk_rotate_convert_configs : List ChunkRotateConversionConfig
  block_count_cols : Cols3
deriving DecidableEq

/-- The `while chunk_idx < 64` loop of
`LaneRotateConversionConfig::configure`, building one
`ChunkRotateConversionConfig` per chunk (same fuel embedding as
`chunkStepsAux`); `none` as soon as one chunk's `configure` panics. -/
def laneChunksAux (rotation q_running_sum q_is_running_sum_final : ℕ)
    (base_13_cols base_9_cols block_count_cols : Cols3) :
    ℕ → ℕ → Option (List ChunkRotateConversionConfig)
  | 0, _ => some []
  | fuel + 1, chunk_idx =>
    if chunk_idx < 64 then
      let step := get_step_size chunk_idx rotation
      match ChunkRotateConversionConfig.configure q_running_sum
          q_is_running_sum_final base_13_cols base_9_cols block_count_cols
          step with
      | none => none
      | some config =>
        (laneChunksAux rotation q_running_sum q_is_running_sum_final
            base_13_cols base_9_cols block_count_cols fuel
            (chunk_idx + step)).map
          (fun rest => config :: rest)
    else some []

/-- `LaneRotateConversionConfig::configure`: allocates the base-13 and
base-9 advice triples and the `q_is_running_sum_final` / `q_running_sum`
selectors (in source order), then runs the chunk loop from `chunk_idx = 1`.
`block_count_cols` is a parameter supplied by the caller.  `none` when the
loop aborts in `BlockCountAccConfig::configure`. -/
def LaneRotateConversionConfig.configure (q_enable : ℕ) (cs : CS)
    (block_count_cols : Cols3) (keccak_rotation : ℕ) :
    Option (LaneRotateConversionConfig × CS) :=
  let (a0, cs) := cs.advice_column
  let (a1, cs) := cs.advice_column
  let (a2, cs) := cs.advice_column
  let base_13_cols : Cols3 := ⟨a0, a1, a2⟩
  let (a3, cs) := cs.advice_column
  let (a4, cs) := cs.advice_column
  let (a5, cs) := cs.advice_column
  let base_9_cols : Cols3 := ⟨a3, a4, a5⟩
  let (q_is_running_sum_final, cs) := cs.selector
  let (q_running_sum, cs) := cs.selector
  (laneChunksAux keccak_rotation q_running_sum q_is_running_sum_final
      base_13_cols base_9_cols block_count_cols 63 1).map
    (fun chunk_rotate_convert_configs =>
      ({ q_enable := q_enable,
         base_13_cols := base_13_cols,
         base_9_cols := base_9_cols,
         chunk_rotate_convert_configs := chunk_rotate_convert_configs,
         block_count_cols := block_count_cols }, cs))

/-! ### Helper lemmas -/

theorem gateHolds_pair {F : Type} [CommRing F] (n₁ n₂ : String) (a b : F) :
    gateHolds [(n₁, a), (n₂, b)] ↔ a = 0 ∧ b = 0 := by
  simp [gateHolds]

theorem gateHolds_triple {F : Type} [CommRing F] (n₁ n₂ n₃ : String)
    (a b c : F) :
    gateHolds [(n₁, a), (n₂, b), (n₃, c)] ↔ a = 0 ∧ b = 0 ∧ c = 0 := by
  simp [gateHolds]

theorem foldl_mul_eq_mul_prod {F : Type} [CommRing F] :
    ∀ (xs : List F) (x : F), xs.foldl (· * ·) x = x * xs.prod
  | [], x => by simp
  | y :: ys, x => by
    rw [List.foldl_cons, foldl_mul_eq_mul_prod ys (x * y), List.prod_cons,
      mul_assoc]

theorem reduceMul_cons {F : Type} [CommRing F] (x : F) (xs : List F) :
    reduceMul (x :: xs) = some ((x :: xs).prod) := by
  rw [reduceMul, List.prod_cons, foldl_mul_eq_mul_prod]

/-- Both `0..=12` and `0..=13*13` are non-empty, so both `reduce`s in
`BlockCountFinalConfig::configure` return `Some` and the gate is the pair
of selector-gated products. -/
theorem blockCountFinalGate_eq {F : Type} [CommRing F]
    (q_enable step2_acc step3_acc : F) :
    blockCountFinalGate q_enable step2_acc step3_acc =
      [("step2_acc <=12",
          q_enable * ((List.range (12 + 1)).map
            (fun x : ℕ => step2_acc - (x : F))).prod),
       ("step3_acc <= 13 * 13",
          q_enable * ((List.range (13 * 13 + 1)).map
            (fun x : ℕ => step3_acc - (x : F))).prod)] := by
  rw [blockCountFinalGate,
    show List.range (12 + 1) = 0 :: (List.range 12).map Nat.succ from
      List.range_succ_eq_map 12,
    show List.range (13 * 13 + 1) =
        0 :: (List.range (13 * 13)).map Nat.succ from
      List.range_succ_eq_map (13 * 13),
    ]
  simp only [List.map_cons, List.map_nil, reduceMul_cons]

/-- The product `∏ v ≤ bound, (acc − v)` vanishes iff `acc` is one of the
cast integers `0, …, bound`. -/
theorem prod_sub_range_eq_zero_iff {F : Type} [Field F] (bound : ℕ)
    (acc : F) :
    ((List.range (bound + 1)).map (fun x : ℕ => acc - (x : F))).prod = 0 ↔
      ∃ v : ℕ, v ≤ bound ∧ acc = (v : F) := by
  rw [List.prod_eq_zero_iff]
  constructor
  · intro h
    obtain ⟨v, hv, hz⟩ := List.mem_map.mp h
    exact ⟨v, Nat.lt_succ_iff.mp (List.mem_range.mp hv), sub_eq_zero.mp hz⟩
  · rintro ⟨v, hv, rfl⟩
    exact List.mem_map.mpr
      ⟨v, List.mem_range.mpr (Nat.lt_succ_iff.mpr hv), by simp⟩

/-- `blockCountAccGate`'s result, asserted to exist and vanish: the gate
panicking (`none`) never "holds". -/
def optGateHolds {F : Type} [CommRing F]
    (o : Option (List (String × F))) : Prop :=
  match o with
  | some gate => gateHolds gate
  | none => False

/-! ### Claims -/

/-- C3: on an enabled row (`q_enable = 1`) with the `is_final` selector off,
the "mul" gate of `RunningSumConfig::configure` with base `B` and step `s`
holds iff `accumulator(next) = accumulator(cur) − coefficient(cur)·slice(cur)`
and `slice(next) = slice(cur)·B^s`; with `is_final` on, it holds iff
`accumulator(cur) − coefficient(cur)·slice(cur) = 0` and
`slice(next) = slice(cur)·B^s`. -/
theorem running_sum_gate_semantics {F : Type} [CommRing F] (base step : ℕ)
    (coef slice acc next_slice next_acc : F) :
    (gateHolds (runningSumGate base step 1 0 coef slice acc next_slice next_acc)
      ↔ next_acc = acc - coef * slice
        ∧ next_slice = slice * (base : F) ^ step) ∧
    (gateHolds (runningSumGate base step 1 1 coef slice acc next_slice next_acc)
      ↔ acc - coef * slice = 0
        ∧ next_slice = slice * (base : F) ^ step) := by
  constructor
  · rw [show runningSumGate base step (1 : F) 0 coef slice acc next_slice
        next_acc =
      [("(not final) check next acc",
          1 * (((0 : F) - 1) * (next_acc - (acc - coef * slice)))),
       ("(final) check acc", 1 * ((0 : F) * (acc - coef * slice))),
       ("next slice",
          1 * (next_slice - slice * ((base ^ step : ℕ) : F)))] from rfl,
      gateHolds_triple]
    constructor
    · rintro ⟨h₁, -, h₃⟩
      push_cast at h₃
      exact ⟨by linear_combination -h₁, by linear_combination h₃⟩
    · rintro ⟨h₁, h₃⟩
      refine ⟨by linear_combination -h₁, by ring, ?_⟩
      push_cast
      linear_combination h₃
  · rw [show runningSumGate base step (1 : F) 1 coef slice acc next_slice
        next_acc =
      [("(not final) check next acc",
          1 * (((1 : F) - 1) * (next_acc - (acc - coef * slice)))),
       ("(final) check acc", 1 * ((1 : F) * (acc - coef * slice))),
       ("next slice",
          1 * (next_slice - slice * ((base ^ step : ℕ) : F)))] from rfl,
      gateHolds_triple]
    constructor
    · rintro ⟨-, h₂, h₃⟩
      push_cast at h₃
      exact ⟨by linear_combination h₂, by linear_combination h₃⟩
    · rintro ⟨h₂, h₃⟩
      refine ⟨by ring, by linear_combination h₂, ?_⟩
      push_cast
      linear_combination h₃

/-- C4: on an enabled row (`q_enable = 1`), the
`BlockCountFinalConfig::configure` gate constrains
`Π_{v=0}^{12}(step2_total − v)` and `Π_{v=0}^{169}(step3_total − v)` to
zero, and over the field each product vanishes iff the corresponding
running total equals one of the enumerated integers (step-2 total in
`{0,…,12}`, step-3 total in `{0,…,169}`). -/
theorem block_count_final_gate_semantics {F : Type} [Field F]
    (step2_acc step3_acc : F) :
    gateHolds (blockCountFinalGate 1 step2_acc step3_acc) ↔
      (∃ v : ℕ, v ≤ 12 ∧ step2_acc = (v : F)) ∧
      (∃ v : ℕ, v ≤ 169 ∧ step3_acc = (v : F)) := by
  rw [blockCountFinalGate_eq, gateHolds_pair, one_mul, one_mul,
    prod_sub_range_eq_zero_iff, show (13 * 13 : ℕ) = 169 from rfl,
    prod_sub_range_eq_zero_iff]

/-- C5: on an enabled row (`q_enable = 1`), the
`BlockCountAccConfig::configure` gate with step 1 holds iff the block-count
is 0 and both running totals are unchanged; with step 2, iff the step-2
total's delta equals the block-count and the step-3 total is unchanged;
with step 3, iff the step-3 total's delta equals the block-count and the
step-2 total is unchanged. -/
theorem block_count_acc_gate_semantics {F : Type} [CommRing F]
    (block_count bc2_cur bc2_next bc3_cur bc3_next : F) :
    (optGateHolds
        (blockCountAccGate 1 1 block_count bc2_cur bc2_next bc3_cur bc3_next)
      ↔ block_count = 0 ∧ bc2_next - bc2_cur = 0 ∧ bc3_next - bc3_cur = 0) ∧
    (optGateHolds
        (blockCountAccGate 2 1 block_count bc2_cur bc2_next bc3_cur bc3_next)
      ↔ bc2_next - bc2_cur = block_count ∧ bc3_next - bc3_cur = 0) ∧
    (optGateHolds
        (blockCountAccGate 3 1 block_count bc2_cur bc2_next bc3_cur bc3_next)
      ↔ bc3_next - bc3_cur = block_count ∧ bc2_next - bc2_cur = 0) := by
  refine ⟨?_, ?_, ?_⟩
  · show gateHolds
        [("block_count = 0", 1 * block_count),
         ("delta_step2 = 0", 1 * (bc2_next - bc2_cur)),
         ("delta_step3 = 0", 1 * (bc3_next - bc3_cur))] ↔ _
    rw [gateHolds_triple, one_mul, one_mul, one_mul]
  · show gateHolds
        [("delta_step2 = block_count",
            1 * (bc2_next - bc2_cur - block_count)),
         ("delta_step3 = 0", 1 * (bc3_next - bc3_cur))] ↔ _
    rw [gateHolds_pair, one_mul, one_mul, sub_eq_zero]
  · show gateHolds
        [("delta_step2 = 0", 1 * (bc2_next - bc2_cur)),
         ("delta_step3 = block_count",
            1 * (bc3_next - bc3_cur - block_count))] ↔ _
    rw [gateHolds_pair]
    constructor <;> rintro ⟨h₁, h₂⟩ <;>
      exact ⟨by linear_combination h₂, by linear_combination h₁⟩

/-- C9: every constraint of the Running-Sum, Block-Count Accumulator and
Block-Count Final gates is wrapped in a multiplication by the `q_enable`
selector, so with `q_enable = 0` each gate's emitted list consists of
constraints that all evaluate to `0`, whatever the advice values are. -/
theorem gates_vanish_when_disabled {F : Type} [CommRing F] (base step : ℕ)
    (is_final coef slice acc next_slice next_acc block_count bc2_cur
      bc2_next bc3_cur bc3_next step2_acc step3_acc : F) :
    runningSumGate base step 0 is_final coef slice acc next_slice next_acc =
      [("(not final) check next acc", 0), ("(final) check acc", 0),
       ("next slice", 0)] ∧
    blockCountAccGate 1 0 block_count bc2_cur bc2_next bc3_cur bc3_next =
      some [("block_count = 0", 0), ("delta_step2 = 0", 0),
            ("delta_step3 = 0", 0)] ∧
    blockCountAccGate 2 0 block_count bc2_cur bc2_next bc3_cur bc3_next =
      some [("delta_step2 = block_count", 0), ("delta_step3 = 0", 0)] ∧
    blockCountAccGate 3 0 block_count bc2_cur bc2_next bc3_cur bc3_next =
      some [("delta_step2 = 0", 0), ("delta_step3 = block_count", 0)] ∧
    blockCountFinalGate 0 step2_acc step3_acc =
      [("step2_acc <=12", 0), ("step3_acc <= 13 * 13", 0)] := by
  refine ⟨?_, ?_, ?_, ?_, ?_⟩
  · simp [runningSumGate]
  · simp [blockCountAccGate]
  · simp [blockCountAccGate]
  · simp [blockCountAccGate]
  · rw [blockCountFinalGate_eq]
    simp

/-- C10: in `BlockCountFinalConfig::configure` both factor ranges `0..=12`
and `0..=169` are non-empty, so each `reduce` yields `Some`, and the gate
is exactly the two selector-gated product constraints — the `None` fallback
that would emit the constant-zero constraint is never taken. -/
theorem block_count_final_reduce_some {F : Type} [CommRing F]
    (q_enable step2_acc step3_acc : F) :
    (reduceMul ((List.range (12 + 1)).map
        (fun x : ℕ => step2_acc - (x : F)))).isSome = true ∧
    (reduceMul ((List.range (13 * 13 + 1)).map
        (fun x : ℕ => step3_acc - (x : F)))).isSome = true ∧
    blockCountFinalGate q_enable step2_acc step3_acc =
      [("step2_acc <=12",
          q_enable * ((List.range (12 + 1)).map
            (fun x : ℕ => step2_acc - (x : F))).prod),
       ("step3_acc <= 13 * 13",
          q_enable * ((List.range (13 * 13 + 1)).map
            (fun x : ℕ => step3_acc - (x : F))).prod)] := by
  refine ⟨?_, ?_, blockCountFinalGate_eq q_enable step2_acc step3_acc⟩
  · rw [show List.range (12 + 1) = 0 :: (List.range 12).map Nat.succ from
      List.range_succ_eq_map 12, List.map_cons, reduceMul_cons]
    rfl
  · rw [show List.range (13 * 13 + 1) =
        0 :: (List.range (13 * 13)).map Nat.succ from
      List.range_succ_eq_map (13 * 13), List.map_cons, reduceMul_cons]
    rfl

/-- C6: for every `chunk_idx` in `[1,64)` and rotation in `[0,64)`,
`get_step_size` returns `rotation − chunk_idx` under the pivot rule (tested
first), else `64 − chunk_idx` under the lane-end rule, else 4; and a chunk
shrunk by either rule ends exactly at the pivot, respectively at bit 64. -/
theorem get_step_size_cases (chunk_idx rotation : ℕ)
    (h₁ : 1 ≤ chunk_idx) (h₂ : chunk_idx < 64) (h₃ : rotation < 64) :
    (chunk_idx < rotation ∧ rotation < chunk_idx + 4 →
      get_step_size chunk_idx rotation = rotation - chunk_idx ∧
      chunk_idx + get_step_size chunk_idx rotation = rotation) ∧
    (¬(chunk_idx < rotation ∧ rotation < chunk_idx + 4) →
      chunk_idx < 64 ∧ 64 < chunk_idx + 4 →
      get_step_size chunk_idx rotation = 64 - chunk_idx ∧
      chunk_idx + get_step_size chunk_idx rotation = 64) ∧
    (¬(chunk_idx < rotation ∧ rotation < chunk_idx + 4) →
      ¬(chunk_idx < 64 ∧ 64 < chunk_idx + 4) →
      get_step_size chunk_idx rotation = 4) := by
  unfold get_step_size
  refine ⟨?_, ?_, ?_⟩ <;> intros <;> split_ifs <;> omega

/-- Witness for C6 at `chunk_idx = 61`, `rotation = 20` (lane-end rule:
the chunk is shrunk to step 3 and ends exactly at bit 64). -/
theorem get_step_size_cases_witness :
    (1 ≤ 61 ∧ 61 < 64 ∧ 20 < 64) ∧
    ((61 < 20 ∧ 20 < 61 + 4 →
        get_step_size 61 20 = 20 - 61 ∧
        61 + get_step_size 61 20 = 20) ∧
     (¬(61 < 20 ∧ 20 < 61 + 4) → 61 < 64 ∧ 64 < 61 + 4 →
        get_step_size 61 20 = 64 - 61 ∧
        61 + get_step_size 61 20 = 64) ∧
     (¬(61 < 20 ∧ 20 < 61 + 4) → ¬(61 < 64 ∧ 64 < 61 + 4) →
        get_step_size 61 20 = 4)) :=
  ⟨⟨by decide, by decide, by decide⟩,
    get_step_size_cases 61 20 (by decide) (by decide) (by decide)⟩

/-- C2 counterexample: for rotation 0 the scheduler's boundary at bit 5
(after the first step-4 chunk) coincides neither with the rotation amount 0
nor with 64, so "each chunk boundary coincides with r or with 64" is false
as stated. -/
theorem chunk_boundary_counterexample :
    5 ∈ chunkBoundaries 0 ∧ 5 ≠ 0 ∧ 5 ≠ 64 := by decide

/-- C2 (amended): for every rotation in `[0,64)` the chunk sequence exactly
tiles `[1,64)`: boundaries strictly increase, the last boundary is exactly
64 (no zero-length chunk, never past 64, so the loop terminates), every
step is in `{1,2,3,4}`, and the rotation amount (when ≥ 1) and 64 each
coincide with a chunk boundary. -/
theorem scheduler_tiles_lane :
    ∀ rotation, rotation < 64 →
      List.Pairwise (· < ·) (chunkBoundaries rotation) ∧
      (chunkBoundaries rotation).getLast? = some 64 ∧
      (∀ s ∈ chunkSteps rotation, 1 ≤ s ∧ s ≤ 4) ∧
      (1 ≤ rotation → rotation ∈ chunkBoundaries rotation) ∧
      64 ∈ chunkBoundaries rotation := by
  decide

/-- Witness for C2 (amended) at rotation 20. -/
theorem scheduler_tiles_lane_witness :
    20 < 64 ∧
    (List.Pairwise (· < ·) (chunkBoundaries 20) ∧
     (chunkBoundaries 20).getLast? = some 64 ∧
     (∀ s ∈ chunkSteps 20, 1 ≤ s ∧ s ≤ 4) ∧
     (1 ≤ 20 → 20 ∈ chunkBoundaries 20) ∧
     64 ∈ chunkBoundaries 20) :=
  ⟨by decide, scheduler_tiles_lane 20 (by decide)⟩

/-- C7 counterexample: for rotation 1 the scheduler's first chunk (at
`chunk_idx = 1`) has step 4, not step 1 — the pivot test
`chunk_idx < rotation` is strict, so a pivot at bit 1 never shrinks the
first chunk. -/
theorem rotation_one_counterexample :
    (chunkSteps 1).head? = some 4 ∧ (chunkSteps 1).head? ≠ some 1 := by
  decide

/-- C7 (amended): for rotation 1 the pivot (bit 1) coincides with the first
chunk's start; every chunk has step 4 except the final chunk, which the
lane-end boundary shortens to step 3 so that it ends exactly at bit 64. -/
theorem rotation_one_schedule :
    chunkSteps 1 = List.replicate 15 4 ++ [3] ∧
    1 ∈ chunkBoundaries 1 ∧
    (chunkBoundaries 1).getLast? = some 64 := by decide

/-- C1: the claim that every scheduled step lies in `{1,2,3}` fails — for
every rotation in `[0,64)` the schedule contains a step-4 chunk, and
`BlockCountAccConfig::configure` on step 4 takes the
`unreachable!("expect step < 4")` branch (modelled as `none`) while
`create_gate` evaluates its closure, aborting lane construction. -/
theorem step_four_reaches_unreachable :
    ((List.range 64).all fun rotation =>
      (chunkSteps rotation).contains 4) = true ∧
    (BlockCountAccConfig.configure 0 ⟨0, 1, 2⟩ 4).isNone = true ∧
    (blockCountAccGate (F := ℤ) 4 1 0 0 0 0 0).isNone = true := by decide

/-- C8 counterexample: for rotation 0 the scheduler produces 16 chunks, yet
`LaneRotateConversionConfig::configure` aborts (panics in
`BlockCountAccConfig::configure` at the very first chunk, whose step is 4)
and instantiates no complete chunk-unit list at all. -/
theorem lane_configure_counterexample :
    (chunkSteps 0).length = 16 ∧
    (LaneRotateConversionConfig.configure 0 ⟨0, 0⟩ ⟨0, 1, 2⟩ 0).isNone
      = true := by decide

/-- C8 (amended): every chunk unit that `ChunkRotateConversionConfig` does
build (steps 1, 2, 3) records exactly the base-13, base-9 and block-count
triples and the `q_enable`/`is_final` selector pair handed to it — the
lane loop hands every chunk the same ones — but for every rotation in
`[0,64)` lane construction aborts at the first step-4 chunk, so
`LaneRotateConversionConfig::configure` never completes. -/
theorem lane_configure_wiring :
    (((List.range 64).all fun rotation =>
      (LaneRotateConversionConfig.configure 0 ⟨0, 0⟩ ⟨0, 1, 2⟩
        rotation).isNone) = true) ∧
    (∀ (q_enable is_final : ℕ) (base_13_cols base_9_cols
        block_count_cols : Cols3),
      (ChunkRotateConversionConfig.configure q_enable is_final base_13_cols
          base_9_cols block_count_cols 1).map
        (fun c => (c.q_enable, c.base_13_cols, c.base_9_cols,
          c.block_count_cols, c.b13_rs_config.is_final,
          c.b9_rs_config.is_final, c.b13_rs_config.base,
          c.b9_rs_config.base)) =
        some (q_enable, base_13_cols, base_9_cols, block_count_cols,
          is_final, is_final, B13, B9) ∧
      (ChunkRotateConversionConfig.configure q_enable is_final base_13_cols
          base_9_cols block_count_cols 2).map
        (fun c => (c.q_enable, c.base_13_cols, c.base_9_cols,
          c.block_count_cols, c.b13_rs_config.is_final,
          c.b9_rs_config.is_final, c.b13_rs_config.base,
          c.b9_rs_config.base)) =
        some (q_enable, base_13_cols, base_9_cols, block_count_cols,
          is_final, is_final, B13, B9) ∧
      (ChunkRotateConversionConfig.configure q_enable is_final base_13_cols
          base_9_cols block_count_cols 3).map
        (fun c => (c.q_enable, c.base_13_cols, c.base_9_cols,
          c.block_count_cols, c.b13_rs_config.is_final,
          c.b9_rs_config.is_final, c.b13_rs_config.base,
          c.b9_rs_config.base)) =
        some (q_enable, base_13_cols, base_9_cols, block_count_cols,
          is_final, is_final, B13, B9)) := by
  refine ⟨by decide, ?_⟩
  intro q_enable is_final base_13_cols base_9_cols block_count_cols
  exact ⟨rfl, rfl, rfl⟩

end RunningSum
